import Mathlib

/-!
Shallow embedding of `src/main.py` (a FastAPI service that fetches a remote
PDF, rasterizes its pages to PNG and returns them as a ZIP archive), together
with theorems settling the specification claims about it.

Modelling conventions:
- bytes are `List Nat`;
- an HTTP response observed by `download_pdf` is its status, optional
  `Content-Type` header and body;
- a transport-level `aiohttp.ClientError` is a separate fetch outcome;
- the external rendering engine (`fitz`) is abstract: opening the byte stream
  either fails to parse or yields a document with a page count and a
  rasterize-to-PNG function (page index and DPI to PNG bytes);
- Python `raise HTTPException(status_code, detail)` becomes an `Except` error
  carrying the status and the detail string; the `try/except` blocks of the
  source are modelled explicitly, since `fastapi.HTTPException` is a subclass
  of `Exception` and is therefore caught by the blanket handlers;
- `zipfile.ZipFile.writestr(name, data)` is modelled as appending the entry
  `(name, data)` to the archive's entry list, i.e. the archive is identified
  with its ordered list of (entry name, stored bytes) pairs (DEFLATE
  round-trips the stored bytes).
-/

namespace PdfService

/-- A `fastapi.HTTPException`: status code plus human-readable detail. -/
structure HTTPError where
  status : Nat
  detail : String
deriving DecidableEq, Repr

/-- The HTTP response seen inside `download_pdf`: status, optional
`Content-Type` header (`none` when the header is absent) and body bytes. -/
structure HTTPResponse where
  status : Nat
  contentType : Option String
  body : List Nat
deriving DecidableEq, Repr

/-- Outcome of the outbound `aiohttp` GET: either a response was obtained, or
a transport-level fault (`aiohttp.ClientError`: DNS, TLS, reset, timeout). -/
inductive FetchOutcome where
  | success (resp : HTTPResponse)
  | transportFault
deriving DecidableEq, Repr

/-- An opened `fitz` document: its page count, and the engine's rasterization
capability `render page_num dpi` modelling
`doc.load_page(page_num).get_pixmap(dpi=dpi).tobytes("png")`. -/
structure PDFDoc where
  page_count : Nat
  render : Nat → Nat → List Nat

/-- Result of `fitz.open(stream=pdf_bytes, filetype="pdf")`: the engine either
parses the bytes into a document or raises. -/
inductive OpenResult where
  | ok (doc : PDFDoc)
  | parseError

/-- The environment of one `/convert-pdf` request: what the outbound fetch
returns, and what the rendering engine does on any byte string. -/
structure ConvertInput where
  fetch : FetchOutcome
  fitz_open : List Nat → OpenResult

/-- `MAX_PDF_SIZE = 100 * 1024 * 1024`, main.py line 50. -/
def MAX_PDF_SIZE : Nat := 100 * 1024 * 1024

/-- `MAX_PAGE_COUNT = 5000`, main.py line 66. -/
def MAX_PAGE_COUNT : Nat := 5000

/-- `DPI = 71`, main.py line 67. -/
def DPI : Nat := 71

/-- Python's `pat in s` substring test on strings. -/
def containsSubstr (s pat : String) : Bool :=
  decide (pat.toList <:+: s.toList)

/-- Lowercasing, modelling Python's `str.lower` on the ASCII range. -/
def strLower (s : String) : String :=
  String.mk (s.toList.map Char.toLower)

/-- The body of the `try:` block of `download_pdf` (main.py lines 36-53),
given the obtained response: status check, content-type check, size check.
Errors are the `HTTPException`s raised at lines 41-43, 46-48 and 51-52,
before the enclosing `except` clauses transform them. -/
def download_pdf_try (resp : HTTPResponse) : Except HTTPError (List Nat) :=
  if resp.status ≠ 200 then
    .error ⟨400, "Failed to download PDF. Status code: " ++ toString resp.status⟩
  else
    let content_type := resp.contentType.getD ""
    if ¬ containsSubstr (strLower content_type) "pdf" then
      .error ⟨400, "URL does not point to a PDF file. Content-Type: " ++ content_type⟩
    else if resp.body.length > MAX_PDF_SIZE then
      .error ⟨400, "PDF file is too large."⟩
    else
      .ok resp.body

/-- `download_pdf` (main.py lines 34-59) including its `except` clauses:
an `aiohttp.ClientError` becomes the 400 "Client error" response (lines
54-56); any other exception — including the `HTTPException`s raised inside
the `try:` block, since `fastapi.HTTPException` subclasses `Exception` —
is caught by the blanket handler at lines 57-59 and re-raised as
500 "Unexpected error occurred.". -/
def download_pdf (o : FetchOutcome) : Except HTTPError (List Nat) :=
  match o with
  | .transportFault =>
      .error ⟨400, "Client error occurred while downloading PDF."⟩
  | .success resp =>
      match download_pdf_try resp with
      | .ok b => .ok b
      | .error _ => .error ⟨500, "Unexpected error occurred."⟩

/-- An exception escaping the `try:` block of `convert_pdf_to_images`:
either a raised `HTTPException`, or any other engine failure. -/
inductive ConvertRaise where
  | engineFailure
  | httpExc (e : HTTPError)
deriving DecidableEq, Repr

/-- The body of the `try:` block of `convert_pdf_to_images` (main.py lines
64-82): open the document (an unparsable stream makes `fitz.open` raise),
check the page count against `MAX_PAGE_COUNT` (the `HTTPException` raised at
lines 71-75 carries the actual count), then rasterize pages
`0 .. min(page_count, MAX_PAGE_COUNT) - 1` at `DPI`, collecting
`(page_num + 1, png_bytes)` pairs. -/
def convert_pdf_to_images_try (o : OpenResult) :
    Except ConvertRaise (List (Nat × List Nat)) :=
  match o with
  | .parseError => .error .engineFailure
  | .ok doc =>
      if doc.page_count > MAX_PAGE_COUNT then
        .error (.httpExc ⟨400,
          "PDF has too many pages (" ++ toString doc.page_count ++
            "). Maximum allowed is " ++ toString MAX_PAGE_COUNT ++ "."⟩)
      else
        .ok ((List.range (min doc.page_count MAX_PAGE_COUNT)).map
          (fun page_num => (page_num + 1, doc.render page_num DPI)))

/-- `convert_pdf_to_images` (main.py lines 62-85) including its
`except Exception` clause (lines 83-85): any exception escaping the `try:`
block — the engine's parse failure as well as the page-limit
`HTTPException(400, ...)` — is re-raised as
500 "Error converting PDF to images.". -/
def convert_pdf_to_images (o : OpenResult) :
    Except HTTPError (List (Nat × List Nat)) :=
  match convert_pdf_to_images_try o with
  | .ok l => .ok l
  | .error _ => .error ⟨500, "Error converting PDF to images."⟩

/-- The page indices on which `convert_pdf_to_images` invokes the
rasterization capability (`page.get_pixmap`): none when `fitz.open` raises or
the page-count check raises before the loop, else exactly the loop indices. -/
def convert_pdf_to_images_calls (o : OpenResult) : List Nat :=
  match o with
  | .parseError => []
  | .ok doc =>
      if doc.page_count > MAX_PAGE_COUNT then []
      else List.range (min doc.page_count MAX_PAGE_COUNT)

/-- The ZIP-packaging loop of the `/convert-pdf` endpoint (main.py lines
97-101): one entry per rendered page, in list order, named
`page_<pageNumber>.png`, storing that page's PNG bytes. -/
def zip_entries (pages : List (Nat × List Nat)) : List (String × List Nat) :=
  pages.map (fun p => ("page_" ++ toString p.1 ++ ".png", p.2))

/-- The `/convert-pdf` endpoint `convert_pdf` (main.py lines 88-109):
download, render, fail with 500 "No images were generated." on an empty page
list (lines 93-94), else return the in-memory ZIP, identified with its
ordered entry list. Stage errors propagate to the caller unchanged. -/
def convert_pdf (inp : ConvertInput) :
    Except HTTPError (List (String × List Nat)) :=
  match download_pdf inp.fetch with
  | .error e => .error e
  | .ok pdf_bytes =>
      match convert_pdf_to_images (inp.fitz_open pdf_bytes) with
      | .error e => .error e
      | .ok image_bytes_list =>
          if image_bytes_list.isEmpty then
            .error ⟨500, "No images were generated."⟩
          else
            .ok (zip_entries image_bytes_list)

/-- Rasterization calls made over a whole `/convert-pdf` request: none when
the download stage fails, else those of the rendering stage. -/
def convert_pdf_calls (inp : ConvertInput) : List Nat :=
  match download_pdf inp.fetch with
  | .error _ => []
  | .ok pdf_bytes => convert_pdf_to_images_calls (inp.fitz_open pdf_bytes)

/-- The error surfaced to the HTTP caller, if any. -/
def surfacedError {α : Type} : Except HTTPError α → Option HTTPError
  | .ok _ => none
  | .error e => some e

/-- Whether a status code is in the 4xx class. -/
def is4xx (s : Nat) : Bool :=
  decide (400 ≤ s) && decide (s < 500)

/-- Whether a status code is in the 5xx class. -/
def is5xx (s : Nat) : Bool :=
  decide (500 ≤ s) && decide (s < 600)

/-- C1: evaluation at the failing input. A fetch answered with HTTP status
404 makes the `try:` block of `download_pdf` raise the intended
`HTTPException(400, "Failed to download PDF. Status code: 404")`, but the
blanket `except Exception` clause catches that very exception and the caller
receives HTTP 500 "Unexpected error occurred." instead — neither a 400 nor a
detail mentioning the status code. No later stage runs: the request errors
out with zero rasterization calls. -/
theorem download_404_surfaced_as_500 :
    download_pdf_try ⟨404, some "application/pdf", []⟩ =
      .error ⟨400, "Failed to download PDF. Status code: 404"⟩ ∧
    convert_pdf ⟨.success ⟨404, some "application/pdf", []⟩, fun _ => .parseError⟩ =
      .error ⟨500, "Unexpected error occurred."⟩ ∧
    convert_pdf_calls ⟨.success ⟨404, some "application/pdf", []⟩, fun _ => .parseError⟩ = [] ∧
    is4xx 500 = false :=
  ⟨rfl, rfl, rfl, rfl⟩

/-- C2: evaluation at the failing input. A 5001-page document makes the
`try:` block of `convert_pdf_to_images` raise the intended
`HTTPException(400, ...)` whose detail carries the actual page count, and no
page is rasterized; but the function's own `except Exception` clause catches
that exception, so the caller receives HTTP 500 "Error converting PDF to
images." — a 5xx without the page count, not the 4xx the claim states. -/
theorem page_limit_5001_surfaced_as_500 :
    convert_pdf_to_images_try (.ok ⟨5001, fun _ _ => []⟩) =
      .error (.httpExc ⟨400,
        "PDF has too many pages (5001). Maximum allowed is 5000."⟩) ∧
    convert_pdf_to_images (.ok ⟨5001, fun _ _ => []⟩) =
      .error ⟨500, "Error converting PDF to images."⟩ ∧
    convert_pdf_to_images_calls (.ok ⟨5001, fun _ _ => []⟩) = [] ∧
    is4xx 500 = false :=
  ⟨rfl, rfl, rfl, rfl⟩

/-- C3 counterexample: on an input the engine cannot parse, the render stage
does fail, but the surfaced error is the generic HTTP 500 "Error converting
PDF to images.", which is not in the 4xx class — refuting the claim that a
malformed document is surfaced as a caller-caused 4xx condition. -/
theorem malformed_surfaced_as_500 :
    convert_pdf_to_images .parseError =
      .error ⟨500, "Error converting PDF to images."⟩ ∧
    is4xx 500 = false :=
  ⟨rfl, rfl⟩

/-- C3 amended: for every request whose download succeeds and whose bytes the
rendering engine cannot parse, the pipeline fails with the generic conversion
error, HTTP 500 "Error converting PDF to images." (a 5xx, with no distinct
malformed-document error kind). -/
theorem malformed_pipeline_fails_500 (inp : ConvertInput) (b : List Nat)
    (hdl : download_pdf inp.fetch = .ok b)
    (hopen : inp.fitz_open b = .parseError) :
    convert_pdf inp = .error ⟨500, "Error converting PDF to images."⟩ := by
  simp [convert_pdf, hdl, hopen, convert_pdf_to_images, convert_pdf_to_images_try]

/-- C3 amended, witness: a 200 `application/pdf` response whose single byte
the engine rejects ends in the generic 500 conversion error. -/
theorem malformed_pipeline_fails_500_witness :
    convert_pdf ⟨.success ⟨200, some "application/pdf", [37]⟩, fun _ => .parseError⟩ =
      .error ⟨500, "Error converting PDF to images."⟩ :=
  malformed_pipeline_fails_500
    ⟨.success ⟨200, some "application/pdf", [37]⟩, fun _ => .parseError⟩ [37] rfl rfl

/-- C4 counterexample: a transport-level fault (`aiohttp.ClientError`) is
surfaced as HTTP 400 "Client error occurred while downloading PDF.", and 400
is not in the 5xx class — refuting the claim that transport faults are
surfaced as 5xx internal conditions. -/
theorem transport_fault_surfaced_as_400 :
    download_pdf .transportFault =
      .error ⟨400, "Client error occurred while downloading PDF."⟩ ∧
    is5xx 400 = false :=
  ⟨rfl, rfl⟩

/-- C4 amended: every transport-level fault during fetch is reported with a
dedicated error, HTTP 400 "Client error occurred while downloading PDF.",
distinct from everything a successful-but-wrong response can produce (those
paths surface either success or HTTP 500 "Unexpected error occurred.") — but
it is surfaced as a 4xx, not the 5xx the claim states. -/
theorem transport_fault_distinct (resp : HTTPResponse) :
    surfacedError (download_pdf .transportFault) =
      some ⟨400, "Client error occurred while downloading PDF."⟩ ∧
    (surfacedError (download_pdf (.success resp)) = none ∨
      surfacedError (download_pdf (.success resp)) =
        some ⟨500, "Unexpected error occurred."⟩) := by
  refine ⟨rfl, ?_⟩
  cases h : download_pdf_try resp with
  | ok b => exact Or.inl (by simp [download_pdf, surfacedError, h])
  | error e => exact Or.inr (by simp [download_pdf, surfacedError, h])

/-- C5: a fetched document larger than 100 MiB makes the size check raise the
payload-too-large `HTTPException(400, "PDF file is too large.")`, the whole
request fails (surfaced through the blanket handler as 500 "Unexpected error
occurred.") and zero rasterization calls are made, whatever the engine would
do; a document of at most 100 MiB passes the size check unchanged. -/
theorem oversized_rejected_small_passes (resp : HTTPResponse)
    (hstatus : resp.status = 200)
    (htype : containsSubstr (strLower (resp.contentType.getD "")) "pdf" = true) :
    (resp.body.length > MAX_PDF_SIZE →
      download_pdf_try resp = .error ⟨400, "PDF file is too large."⟩ ∧
      ∀ op : List Nat → OpenResult,
        surfacedError (convert_pdf ⟨.success resp, op⟩) =
          some ⟨500, "Unexpected error occurred."⟩ ∧
        convert_pdf_calls ⟨.success resp, op⟩ = []) ∧
    (resp.body.length ≤ MAX_PDF_SIZE →
      download_pdf_try resp = .ok resp.body) := by
  constructor
  · intro hbig
    have htry : download_pdf_try resp = .error ⟨400, "PDF file is too large."⟩ := by
      simp [download_pdf_try, hstatus, htype, hbig, Nat.not_le_of_lt hbig]
    refine ⟨htry, fun op => ?_⟩
    constructor
    · simp [convert_pdf, download_pdf, htry, surfacedError]
    · simp [convert_pdf_calls, download_pdf, htry]
  · intro hsmall
    simp [download_pdf_try, hstatus, htype, Nat.not_lt_of_le hsmall]

/-- C5 witness: a 200 `application/pdf` response one byte over the limit is
rejected by the size check with "PDF file is too large.". -/
theorem oversized_rejected_witness :
    download_pdf_try ⟨200, some "application/pdf",
        List.replicate (MAX_PDF_SIZE + 1) 0⟩ =
      .error ⟨400, "PDF file is too large."⟩ :=
  ((oversized_rejected_small_passes
      ⟨200, some "application/pdf", List.replicate (MAX_PDF_SIZE + 1) 0⟩
      rfl (by decide)).1 (by simp)).1

/-- C6: for every parsed document with page count between 1 and 5000, the
render stage succeeds with exactly `page_count` entries whose page numbers
are `1, 2, ..., page_count` in order (no gaps, no duplicates), the entry at
position `i` carrying page `i + 1`'s PNG rasterization at the fixed density
`DPI`. -/
theorem render_pages_complete (doc : PDFDoc)
    (h1 : 1 ≤ doc.page_count) (h2 : doc.page_count ≤ MAX_PAGE_COUNT) :
    ∃ l, convert_pdf_to_images (.ok doc) = .ok l ∧
      l.length = doc.page_count ∧
      l.map Prod.fst = List.range' 1 doc.page_count ∧
      ∀ i, i < doc.page_count → l[i]? = some (i + 1, doc.render i DPI) := by
  have hmin : min doc.page_count MAX_PAGE_COUNT = doc.page_count :=
    Nat.min_eq_left h2
  refine ⟨(List.range doc.page_count).map
    (fun page_num => (page_num + 1, doc.render page_num DPI)), ?_, ?_, ?_, ?_⟩
  · simp [convert_pdf_to_images, convert_pdf_to_images_try,
      Nat.not_lt_of_le h2, hmin]
  · simp
  · have : (fun i : Nat => i + 1) = (1 + ·) := funext fun i => Nat.add_comm i 1
    simp [List.map_map, Function.comp_def, List.range'_eq_map_range,
      Nat.add_comm]
  · intro i hi
    simp [List.getElem?_map, List.getElem?_range, hi]

/-- C6 witness: a 3-page document renders to entries numbered 1, 2, 3, each
carrying that page's rasterization at `DPI`. -/
theorem render_pages_complete_witness :
    ∃ l, convert_pdf_to_images (.ok ⟨3, fun i d => [i, d]⟩) = .ok l ∧
      l.length = 3 ∧
      l.map Prod.fst = List.range' 1 3 ∧
      ∀ i, i < 3 → l[i]? = some (i + 1, [i, DPI]) :=
  render_pages_complete ⟨3, fun i d => [i, d]⟩ (by decide) (by decide)

/-- C7: packaging any sequence of rendered pages numbered `1..N` in order
yields an archive whose entry names are exactly `page_1.png ... page_N.png`
in ascending page-number order, and whose stored bytes, entry by entry, are
the pages' original image bytes. -/
theorem archive_roundtrip (pages : List (Nat × List Nat)) (N : Nat)
    (h : pages.map Prod.fst = List.range' 1 N) :
    (zip_entries pages).map Prod.fst =
      (List.range' 1 N).map (fun n => "page_" ++ toString n ++ ".png") ∧
    (zip_entries pages).map Prod.snd = pages.map Prod.snd := by
  constructor
  · have : (zip_entries pages).map Prod.fst =
        (pages.map Prod.fst).map (fun n => "page_" ++ toString n ++ ".png") := by
      simp [zip_entries, List.map_map, Function.comp_def]
    rw [this, h]
  · simp [zip_entries, List.map_map, Function.comp_def]

/-- C7 witness: two pages numbered 1 and 2 package to entries `page_1.png`,
`page_2.png` in order, with their image bytes stored unchanged. -/
theorem archive_roundtrip_witness :
    (zip_entries [(1, [10]), (2, [20])]).map Prod.fst =
      (List.range' 1 2).map (fun n => "page_" ++ toString n ++ ".png") ∧
    (zip_entries [(1, [10]), (2, [20])]).map Prod.snd =
      [(1, [10]), (2, [20])].map Prod.snd :=
  archive_roundtrip [(1, [10]), (2, [20])] 2 rfl

/-- C8 counterexample: a 0-page document reaching packaging is rejected with
HTTP 500 "No images were generated.", and 500 is not in the 4xx class —
refuting the claim that the empty-result condition is surfaced as a 4xx. -/
theorem empty_result_surfaced_as_500 :
    convert_pdf ⟨.success ⟨200, some "application/pdf", []⟩,
        fun _ => .ok ⟨0, fun _ _ => []⟩⟩ =
      .error ⟨500, "No images were generated."⟩ ∧
    is4xx 500 = false :=
  ⟨rfl, rfl⟩

/-- C8 amended: the caller never receives a successful empty archive — every
successful response holds at least one entry — and every empty page sequence
reaching the packaging stage fails with HTTP 500 "No images were generated."
(a 5xx, not the 4xx the claim states). -/
theorem empty_pages_never_succeed (inp : ConvertInput) :
    (∀ entries, convert_pdf inp = .ok entries → 0 < entries.length) ∧
    (∀ b, download_pdf inp.fetch = .ok b →
      convert_pdf_to_images (inp.fitz_open b) = .ok [] →
      convert_pdf inp = .error ⟨500, "No images were generated."⟩) := by
  constructor
  · intro entries hok
    cases hdl : download_pdf inp.fetch with
    | error e => simp [convert_pdf, hdl] at hok
    | ok b =>
      cases hconv : convert_pdf_to_images (inp.fitz_open b) with
      | error e => simp [convert_pdf, hdl, hconv] at hok
      | ok l =>
        simp only [convert_pdf, hdl, hconv] at hok
        cases l with
        | nil => simp at hok
        | cons a t =>
          simp at hok
          rw [← hok]
          simp [zip_entries]
  · intro b hdl hconv
    simp [convert_pdf, hdl, hconv]

/-- C8 amended, witness: a request producing an empty page list (0-page
document) fails with HTTP 500 "No images were generated.". -/
theorem empty_pages_never_succeed_witness :
    convert_pdf ⟨.success ⟨200, some "pdf", []⟩, fun _ => .ok ⟨0, fun _ _ => []⟩⟩ =
      .error ⟨500, "No images were generated."⟩ :=
  (empty_pages_never_succeed
    ⟨.success ⟨200, some "pdf", []⟩, fun _ => .ok ⟨0, fun _ _ => []⟩⟩).2 [] rfl rfl

/-- C9: evaluation at the failing input. A 200 response with `Content-Type:
text/html` makes the `try:` block raise the intended
`HTTPException(400, "URL does not point to a PDF file. ...")`, but the
blanket `except Exception` clause re-raises it, so the caller receives HTTP
500 "Unexpected error occurred." rather than the 400 the claim states. A
content type containing "pdf" in any letter case passes the check. -/
theorem content_type_html_surfaced_as_500 :
    download_pdf_try ⟨200, some "text/html", []⟩ =
      .error ⟨400, "URL does not point to a PDF file. Content-Type: text/html"⟩ ∧
    download_pdf (.success ⟨200, some "text/html", []⟩) =
      .error ⟨500, "Unexpected error occurred."⟩ ∧
    download_pdf (.success ⟨200, some "Application/PDF", [1, 2, 3]⟩) =
      .ok [1, 2, 3] ∧
    is4xx 500 = false :=
  ⟨rfl, rfl, rfl, rfl⟩

/-- C10: a 200 response carrying no `Content-Type` header is handled with the
declared content type defaulted to the empty string, so the content-type
check rejects it (its raised detail ends in `Content-Type: ` followed by
nothing); whatever the body and whatever the rendering engine would do, the
request fails and no document is ever rendered (zero rasterization calls). -/
theorem missing_content_type_rejected (body : List Nat)
    (op : List Nat → OpenResult) :
    download_pdf_try ⟨200, none, body⟩ =
      .error ⟨400, "URL does not point to a PDF file. Content-Type: "⟩ ∧
    download_pdf (.success ⟨200, none, body⟩) =
      .error ⟨500, "Unexpected error occurred."⟩ ∧
    convert_pdf ⟨.success ⟨200, none, body⟩, op⟩ =
      .error ⟨500, "Unexpected error occurred."⟩ ∧
    convert_pdf_calls ⟨.success ⟨200, none, body⟩, op⟩ = [] :=
  ⟨rfl, rfl, rfl, rfl⟩

end PdfService
